import Mathlib

set_option maxRecDepth 400000

/-!
Verification development for the Mythras character generator
(`script.js`, `main.js`, `nav-fix.js`).

The repository contains two independent implementations of the same rules:
`script.js` (single-page generator with culture/career/bonus skill pools) and
`main.js` (multi-step wizard).  This file gives a shallow embedding of the
data model and of the state-mutating event handlers of both implementations,
and proves properties about them.

Conventions:
* JavaScript numbers that hold integer values are modelled as `Int`.
* `parseInt` results that can be `NaN` are modelled as `Option Int`
  (`none` = `NaN`).
* `Math.floor(x / y)` on integers with `y > 0` is `Int.fdiv x y`.
* Dice rolls are modelled by an explicit stream `Nat → Nat` of die results;
  a valid stream for six-sided dice has every entry in `[1, 6]`.
* The mutable singleton `character` object of `script.js` becomes the
  `Character` structure, and each event handler becomes a function
  `Character → ... → Character`.
-/

namespace Mythras

/-! ## Reference data from `script.js` -/

/-- The seven characteristics. -/
inductive AttrKey | STR | CON | SIZ | DEX | INT | POW | CHA
deriving DecidableEq

/-- Characteristic values (JS `character.attributes`). -/
structure Attrs where
  STR : Int
  CON : Int
  SIZ : Int
  DEX : Int
  INT : Int
  POW : Int
  CHA : Int
deriving DecidableEq

def Attrs.get (a : Attrs) : AttrKey → Int
  | .STR => a.STR
  | .CON => a.CON
  | .SIZ => a.SIZ
  | .DEX => a.DEX
  | .INT => a.INT
  | .POW => a.POW
  | .CHA => a.CHA

def Attrs.set (a : Attrs) : AttrKey → Int → Attrs
  | .STR, v => { a with STR := v }
  | .CON, v => { a with CON := v }
  | .SIZ, v => { a with SIZ := v }
  | .DEX, v => { a with DEX := v }
  | .INT, v => { a with INT := v }
  | .POW, v => { a with POW := v }
  | .CHA, v => { a with CHA := v }

/-- The age categories (`ageCategories` in `script.js`); the random age-range
strings are display-only and omitted. -/
inductive AgeKey | Young | Adult | Middle | Senior | Old
deriving DecidableEq

structure AgeCat where
  bonus : Int
  max : Int

def ageCategories : AgeKey → AgeCat
  | .Young  => { bonus := 100, max := 10 }
  | .Adult  => { bonus := 150, max := 15 }
  | .Middle => { bonus := 200, max := 20 }
  | .Senior => { bonus := 250, max := 25 }
  | .Old    => { bonus := 300, max := 30 }

/-- The four cultures offered by the culture dropdown. -/
inductive CultureKey | Barbarian | Civilized | Nomadic | Primitive
deriving DecidableEq

/-- The careers offered by the career dropdown (`careers` in `script.js`). -/
inductive CareerKey
  | Agent | BeastHandler | BountyHunter | Courtesan | Crafter | Detective
  | Entertainer | Farmer | Fisher | Gambler | Herder | Hunter | Journalist
  | Magician | Mechanic | Merchant | Miner | Official | Physician
  | PilotC | Politician | Priest
deriving DecidableEq

structure ArchetypeDef where
  standard : List String
  professional : List String

def cultures : CultureKey → ArchetypeDef
  | .Barbarian =>
    { standard := ["Athletics","Brawn","Endurance","First Aid","Locale","Perception","Boating","Ride","Combat Style"],
      professional := ["Craft","Healing","Lore","Musicianship","Navigation","Seamanship","Survival","Track"] }
  | .Civilized =>
    { standard := ["Conceal","Deceit","Drive","Influence","Insight","Locale","Willpower","Combat Style"],
      professional := ["Art","Commerce","Craft","Courtesy","Language","Lore","Musicianship","Streetwise"] }
  | .Nomadic =>
    { standard := ["Endurance","First Aid","Locale","Perception","Stealth","Athletics","Boating","Swim","Drive","Ride","Combat Style"],
      professional := ["Craft","Culture","Language","Lore","Musicianship","Navigation","Survival","Track"] }
  | .Primitive =>
    { standard := ["Brawn","Endurance","Evade","Locale","Perception","Stealth","Athletics","Boating","Swim","Combat Style"],
      professional := ["Craft","Healing","Lore","Musicianship","Navigation","Survival","Track"] }

def careers : CareerKey → ArchetypeDef
  | .Agent =>
    { standard := ["Conceal","Deceit","Evade","Insight","Perception","Stealth","Combat Style"],
      professional := ["Culture","Disguise","Language","Sleight","Streetwise","Survival","Track"] }
  | .BeastHandler =>
    { standard := ["Drive","Endurance","First Aid","Influence","Locale","Ride","Willpower"],
      professional := ["Craft","Commerce","Healing","Lore","Survival","Teach","Track"] }
  | .BountyHunter =>
    { standard := ["Athletics","Endurance","Evade","Insight","Perception","Stealth","Combat Style"],
      professional := ["Bureaucracy","Commerce","Culture","Linguistics","Streetwise","Survival","Track"] }
  | .Courtesan =>
    { standard := ["Customs","Dance","Deceit","Influence","Insight","Perception","Sing"],
      professional := ["Art","Courtesy","Culture","Gambling","Language","Musicianship","Seduction"] }
  | .Crafter =>
    { standard := ["Brawn","Drive","Influence","Insight","Locale","Perception","Willpower"],
      professional := ["Art","Commerce","Craft","Engineering","Mechanisms","Streetwise"] }
  | .Detective =>
    { standard := ["Customs","Evade","Influence","Insight","Perception","Stealth","Combat Style"],
      professional := ["Bureaucracy","Culture","Disguise","Linguistics","Lore","Research","Sleight","Streetwise"] }
  | .Entertainer =>
    { standard := ["Athletics","Brawn","Dance","Deceit","Influence","Insight","Sing"],
      professional := ["Acrobatics","Acting","Oratory","Musicianship","Seduction","Sleight","Streetwise"] }
  | .Farmer =>
    { standard := ["Athletics","Brawn","Drive","Endurance","Locale","Perception","Ride"],
      professional := ["Commerce","Craft","Lore","Navigation","Survival","Track"] }
  | .Fisher =>
    { standard := ["Athletics","Boating","Endurance","Locale","Perception","Stealth","Swim"],
      professional := ["Commerce","Craft","Lore","Navigation","Seamanship","Survival"] }
  | .Gambler =>
    { standard := ["Athletics","Brawn","Endurance","Locale","Perception","Willpower","Drive","Ride"],
      professional := ["Acting","Bureaucracy","Commerce","Courtesy","Gambling","Research","Sleight","Streetwise"] }
  | .Herder =>
    { standard := ["Endurance","First Aid","Insight","Locale","Perception","Ride","Combat Style"],
      professional := ["Commerce","Craft","Healing","Navigation","Musicianship","Survival","Track"] }
  | .Hunter =>
    { standard := ["Athletics","Endurance","Locale","Perception","Ride","Stealth","Combat Style"],
      professional := ["Commerce","Craft","Lore","Mechanisms","Navigation","Survival","Track"] }
  | .Journalist =>
    { standard := ["Customs","Deceit","Influence","Insight","Locale","Native Tongue","Perception"],
      professional := ["Bureaucracy","Culture","Language","Lore","Oratory","Politics","Streetwise"] }
  | .Magician =>
    { standard := ["Customs","Deceit","Influence","Insight","Locale","Perception","Willpower"],
      professional := ["Culture","Magic","Literacy","Lore","Oratory","Sleight"] }
  | .Mechanic =>
    { standard := ["Brawn","Culture","Drive","Endurance","Influence","Locale","Willpower"],
      professional := ["Commerce","Craft","Electronics","Gambling","Mechanisms","Streetwise"] }
  | .Merchant =>
    { standard := ["Boating","Drive","Deceit","Insight","Influence","Locale","Ride"],
      professional := ["Commerce","Courtesy","Culture","Language","Navigation","Seamanship","Streetwise"] }
  | .Miner =>
    { standard := ["Athletics","Brawn","Endurance","Locale","Perception","Sing","Willpower"],
      professional := ["Commerce","Craft","Engineering","Lore","Mechanisms","Navigation","Survival"] }
  | .Official =>
    { standard := ["Customs","Deceit","Influence","Insight","Locale","Perception","Willpower"],
      professional := ["Bureaucracy","Commerce","Courtesy","Language","Literacy","Lore","Oratory"] }
  | .Physician =>
    { standard := ["Dance","First Aid","Influence","Insight","Locale","Sing","Willpower"],
      professional := ["Commerce","Craft","Healing","Language","Literacy","Lore","Streetwise"] }
  | .PilotC =>
    { standard := ["Brawn","Drive","Endurance","Evade","Locale","Perception","Willpower"],
      professional := ["Customs","Electronics","Mechanisms","Navigation","Pilot","Sensors","Streetwise"] }
  | .Politician =>
    { standard := ["Customs","Deceit","Influence","Insight","Locale","Native Tongue","Perception"],
      professional := ["Bureaucracy","Courtesy","Culture","Language","Lore","Oratory","Politics"] }
  | .Priest =>
    { standard := ["Customs","Dance","Deceit","Influence","Insight","Locale","Willpower"],
      professional := ["Bureaucracy","Courtesy","Customs","Literacy","Lore","Oratory","Politics"] }

def cultureKeys : List CultureKey := [.Barbarian, .Civilized, .Nomadic, .Primitive]

def careerKeys : List CareerKey :=
  [.Agent, .BeastHandler, .BountyHunter, .Courtesan, .Crafter, .Detective,
   .Entertainer, .Farmer, .Fisher, .Gambler, .Herder, .Hunter, .Journalist,
   .Magician, .Mechanic, .Merchant, .Miner, .Official, .Physician,
   .PilotC, .Politician, .Priest]

/-- `standardSkillFormulas`: base-percentage formulas for the standard skills,
in the object-literal insertion order of `script.js`. -/
def standardSkillFormulas : List (String × (Attrs → Int)) :=
  [("Athletics",     fun a => a.STR + a.DEX),
   ("Boating",       fun a => a.STR + a.CON),
   ("Brawn",         fun a => a.STR + a.SIZ),
   ("Conceal",       fun a => a.DEX + a.POW),
   ("Customs",       fun a => a.INT * 2 + 40),
   ("Dance",         fun a => a.DEX + a.CHA),
   ("Deceit",        fun a => a.INT + a.CHA),
   ("Drive",         fun a => a.DEX + a.POW),
   ("Endurance",     fun a => a.CON * 2),
   ("Evade",         fun a => a.DEX * 2),
   ("First Aid",     fun a => a.INT + a.DEX),
   ("Influence",     fun a => a.CHA * 2),
   ("Insight",       fun a => a.INT + a.POW),
   ("Locale",        fun a => a.INT * 2),
   ("Native Tongue", fun a => a.INT + a.CHA + 40),
   ("Perception",    fun a => a.INT + a.POW),
   ("Ride",          fun a => a.DEX + a.POW),
   ("Sing",          fun a => a.CHA + a.POW),
   ("Stealth",       fun a => a.DEX + a.INT),
   ("Swim",          fun a => a.STR + a.CON),
   ("Unarmed",       fun a => a.STR + a.DEX),
   ("Willpower",     fun a => a.POW * 2),
   ("Combat Style",  fun a => a.STR + a.DEX)]

/-- Names of the standard skills (the keys of `standardSkillFormulas`). -/
def standardSkillNames : List String := standardSkillFormulas.map Prod.fst

/-- `professionalSkills` list from `script.js`. -/
def professionalSkills : List String :=
  ["Art", "Commerce", "Craft", "Courtesy", "Language", "Lore",
   "Musicianship", "Streetwise", "Culture", "Disguise", "Sleight",
   "Survival", "Track", "Healing", "Teach", "Bureaucracy",
   "Linguistics", "Gambling", "Seduction", "Engineering",
   "Mechanisms", "Research", "Acrobatics", "Acting", "Oratory",
   "Navigation", "Seamanship", "Electronics", "Magic", "Literacy",
   "Pilot", "Sensors", "Politics", "Customs", "Animal Husbandry"]

/-- JS `Set` insertion: add an element unless already present. -/
def addUnique (acc : List String) (s : String) : List String :=
  if s ∈ acc then acc else acc ++ [s]

/-- Code-unit comparison of character lists, as used by JS `Array.sort()`
on strings (all names here are ASCII, where code units and code points
coincide). -/
def charListLe : List Char → List Char → Bool
  | [], _ => true
  | _ :: _, [] => false
  | a :: as, b :: bs =>
    if a = b then charListLe as bs else Nat.ble a.toNat b.toNat

def strLe (s t : String) : Bool := charListLe s.data t.data

/-- Insertion into a (string-)sorted list; used to model `Array.sort()`. -/
def insertSorted (s : String) : List String → List String
  | [] => [s]
  | t :: ts => if strLe s t then s :: t :: ts else t :: insertSorted s ts

def sortStrings (l : List String) : List String := l.foldr insertSorted []

/-- `buildSkillList()`: the union of standard-skill names, the professional
skill list, and every culture's and career's professional lists, sorted. -/
def buildSkillList : List String :=
  sortStrings
    ((standardSkillNames ++ professionalSkills
        ++ (cultureKeys.map (fun k => (cultures k).professional)).flatten
        ++ (careerKeys.map (fun k => (careers k).professional)).flatten).foldl addUnique [])

def allSkills : List String := buildSkillList

/-! ## Derived statistics (`script.js`, pure table lookups) -/

/-- `damageModifier(total)` from `script.js` (STR+SIZ step table). -/
def damageModifier (total : Int) : String :=
  if total ≤ 5 then "-1d8"
  else if total ≤ 10 then "-1d6"
  else if total ≤ 15 then "-1d4"
  else if total ≤ 20 then "-1d2"
  else if total ≤ 25 then "0"
  else if total ≤ 30 then "+1d2"
  else if total ≤ 35 then "+1d4"
  else if total ≤ 40 then "+1d6"
  else if total ≤ 45 then "+1d8"
  else if total ≤ 50 then "+1d10"
  else if total ≤ 60 then "+1d12"
  else if total ≤ 70 then "+2d6"
  else if total ≤ 80 then "+1d8+1d6"
  else if total ≤ 90 then "+2d8"
  else if total ≤ 100 then "+1d10+1d8"
  else if total ≤ 110 then "+2d10"
  else if total ≤ 120 then "+2d10+1d2"
  else "+2d10+" ++ toString ((total - 120).fdiv 10) ++ "d2"

/-- `experienceModifier(cha)` from `script.js`. -/
def experienceModifier (cha : Int) : Int :=
  if cha ≤ 6 then -1
  else if cha ≤ 12 then 0
  else if cha ≤ 18 then 1
  else 1 + (cha - 13).fdiv 6

/-- `healingRate(con)` from `script.js`. -/
def healingRate (con : Int) : Int :=
  if con ≤ 6 then 1
  else if con ≤ 12 then 2
  else if con ≤ 18 then 3
  else 3 + (con - 13).fdiv 6

/-- `luckPoints(pow)` from `script.js`. -/
def luckPoints (pow : Int) : Int :=
  if pow ≤ 6 then 1
  else if pow ≤ 12 then 2
  else if pow ≤ 18 then 3
  else 3 + (pow - 13).fdiv 6

/-- One row of the hit-points-per-location table. -/
structure HitPoints where
  head : Int
  chest : Int
  abdomen : Int
  arm : Int
  leg : Int
deriving DecidableEq

/-- The 8 base rows of `hitPointsPerLocation`. -/
def hpRows : List HitPoints :=
  [⟨1, 3, 2, 1, 1⟩,
   ⟨2, 4, 3, 1, 2⟩,
   ⟨3, 5, 4, 2, 3⟩,
   ⟨4, 6, 5, 3, 4⟩,
   ⟨5, 7, 6, 4, 5⟩,
   ⟨6, 8, 7, 5, 6⟩,
   ⟨7, 9, 8, 6, 7⟩,
   ⟨8, 10, 9, 7, 8⟩]

/-- `hitPointsPerLocation(total)` from `script.js`.  The row index is
`min(floor((total-1)/5), 7)`; a negative index is an out-of-bounds array
access in JS (`base` is `undefined` and reading `base.head` throws), which we
model as `none`. -/
def hitPointsPerLocation (total : Int) : Option HitPoints :=
  let idx := min ((total - 1).fdiv 5) 7
  let extraGroups := max 0 ((total - 40).fdiv 5)
  if idx < 0 then none
  else
    match hpRows.get? idx.toNat with
    | none => none
    | some base =>
      some ⟨base.head + extraGroups, base.chest + extraGroups,
            base.abdomen + extraGroups, base.arm + extraGroups,
            base.leg + extraGroups⟩

/-! ## Session state (`script.js` `character` object) -/

/-- The three allocation pools. -/
inductive PoolKey | culture | career | bonus
deriving DecidableEq

/-- A triple of per-pool integers (used for `skillPools`, `skillCaps` and each
skill's allocations). -/
structure PoolVals where
  culture : Int
  career : Int
  bonus : Int
deriving DecidableEq

def PoolVals.get (p : PoolVals) : PoolKey → Int
  | .culture => p.culture
  | .career => p.career
  | .bonus => p.bonus

def PoolVals.set (p : PoolVals) : PoolKey → Int → PoolVals
  | .culture, v => { p with culture := v }
  | .career, v => { p with career := v }
  | .bonus, v => { p with bonus := v }

/-- The two sides of the professional-skill selection. -/
inductive Side | culture | career
deriving DecidableEq

/-- An equipment catalog entry. -/
structure Item where
  name : String
  cost : Int
deriving DecidableEq

/-- One social class entry.  The JS multiplier is a multiple of `0.5`
(`0.5 .. 3`), stored here doubled (`multiplier2 = 2 × multiplier`) so that all
arithmetic stays integral; starting silver is `roll * 10 * multiplier`
rounded, which equals `roll * 5 * multiplier2` exactly. -/
structure SocialClass where
  name : String
  multiplier2 : Int

def socialClassesByCulture : CultureKey → List SocialClass
  | .Barbarian => [⟨"Slave", 1⟩, ⟨"Freeman", 2⟩, ⟨"Warrior", 3⟩, ⟨"Noble", 4⟩]
  | .Civilized => [⟨"Slave", 1⟩, ⟨"Peasant", 2⟩, ⟨"Townsman", 3⟩, ⟨"Merchant", 4⟩, ⟨"Noble", 6⟩]
  | .Nomadic => [⟨"Slave", 1⟩, ⟨"Herdsman", 2⟩, ⟨"Horseman", 3⟩, ⟨"Chieftain", 4⟩]
  | .Primitive => [⟨"Outcast", 1⟩, ⟨"Hunter", 2⟩, ⟨"Shaman", 3⟩, ⟨"Chief", 4⟩]

/-- The `character` singleton of `script.js`.  `skillAllocations` is total on
`String`; the JS object has exactly the keys in `allSkills`, and every
handler either indexes with a member of `allSkills` or guards the access, so
keys outside `allSkills` are never written. -/
structure Character where
  ageCat : AgeKey
  culture : CultureKey
  career : CareerKey
  socialClass : String
  attributes : Attrs
  pool : Int
  skillPools : PoolVals
  skillCaps : PoolVals
  skillAllocations : String → PoolVals
  selectedCulturePro : List String
  selectedCareerPro : List String
  bonusSkill : String
  equipment : List Item
  startingSilver : Int

/-- Point a skill's allocation record at a new per-pool value. -/
def setAlloc (f : String → PoolVals) (skill : String) (p : PoolKey) (v : Int) :
    String → PoolVals :=
  fun s => if s = skill then (f skill).set p v else f s

/-- The selection list of one side. -/
def selOf (ch : Character) : Side → List String
  | .culture => ch.selectedCulturePro
  | .career => ch.selectedCareerPro

/-- Sum of one pool's allocations across all skills
(`Object.values(character.skillAllocations).reduce(...)`). -/
def spent (ch : Character) (p : PoolKey) : Int :=
  allSkills.foldl (fun acc s => acc + (ch.skillAllocations s).get p) 0

/-! ## `script.js` event handlers -/

/-- `onSkillInputChange`: a skill-allocation edit.  `input` is the parsed
value (`none` = `NaN`).  A skill not in `allSkills` has no row in the table;
indexing `skillAllocations` with it would throw before any state change, so
that case leaves the state unchanged. -/
def onSkillInputChange (ch : Character) (skill : String) (p : PoolKey)
    (input : Option Int) : Character :=
  if skill ∈ allSkills then
    if input = none ∨ input.getD 0 < 0 then
      { ch with skillAllocations := setAlloc ch.skillAllocations skill p 0 }
    else
      let value := input.getD 0
      let cap := ch.skillCaps.get p
      let v1 := min value cap
      let v2 :=
        if p = PoolKey.culture ∧ skill ∈ (cultures ch.culture).standard then
          max v1 5
        else v1
      let poolTotal := ch.skillPools.get p
      let currentSum := spent ch p
      let available := poolTotal - (currentSum - (ch.skillAllocations skill).get p)
      let v3 := if available < v2 then available else v2
      { ch with skillAllocations := setAlloc ch.skillAllocations skill p v3 }
  else ch

/-- `applyCultureMinimums`: force at least 5 culture points on each of the
current culture's standard skills. -/
def applyCultureMinimums (ch : Character) : Character :=
  { ch with
    skillAllocations :=
      (cultures ch.culture).standard.foldl
        (fun f skill =>
          if (f skill).culture < 5 then setAlloc f skill PoolKey.culture 5 else f)
        ch.skillAllocations }

/-- State effect of `populateBonusSkillSelect`: the bonus skill is cleared
unless it is still outside the excluded set (standard skills, the active
culture's and career's professional lists, and the current selections). -/
def populateBonusSkillSelect (ch : Character) : Character :=
  let excluded :=
    standardSkillNames ++ (cultures ch.culture).professional
      ++ (careers ch.career).professional
      ++ ch.selectedCulturePro ++ ch.selectedCareerPro
  if ch.bonusSkill ≠ "" ∧ ch.bonusSkill ∉ excluded then ch
  else { ch with bonusSkill := "" }

/-- State effect of `populateProfessionalOptions`: drop selections that are
not in the active lists, auto-select the first three entries of a list whose
selection became empty, then re-validate the bonus skill. -/
def populateProfessionalOptions (ch : Character) : Character :=
  let cList := (cultures ch.culture).professional
  let crList := (careers ch.career).professional
  let selC := ch.selectedCulturePro.filter (· ∈ cList)
  let selCr := ch.selectedCareerPro.filter (· ∈ crList)
  let selC := if selC = [] ∧ cList ≠ [] then cList.take 3 else selC
  let selCr := if selCr = [] ∧ crList ≠ [] then crList.take 3 else selCr
  populateBonusSkillSelect
    { ch with selectedCulturePro := selC, selectedCareerPro := selCr }

/-- `onProfessionalSelectionChange`: toggle a professional skill on one side.
Selecting a fourth skill reverts the checkbox and returns with the state
unchanged; deselection zeroes the allocations of professional skills that are
no longer selected. -/
def onProfessionalSelectionChange (ch : Character) (side : Side)
    (skill : String) (checked : Bool) : Character :=
  let arr := selOf ch side
  -- selecting a fourth skill reverts the checkbox and returns immediately
  if checked = true ∧ skill ∉ arr ∧ ¬(arr.length < 3) then ch
  else
    let arr' :=
      if checked = true then (if skill ∈ arr then arr else arr ++ [skill])
      else arr.erase skill
    let ch' :=
      match side with
      | .culture => { ch with selectedCulturePro := arr' }
      | .career => { ch with selectedCareerPro := arr' }
    match side with
    | .culture =>
      { ch' with
        skillAllocations := fun s =>
          if s ∈ allSkills ∧ s ∈ (cultures ch'.culture).professional
              ∧ s ∉ ch'.selectedCulturePro then
            { ch'.skillAllocations s with culture := 0 }
          else ch'.skillAllocations s }
    | .career =>
      { ch' with
        skillAllocations := fun s =>
          if s ∈ allSkills ∧ s ∈ (careers ch'.career).professional
              ∧ s ∉ ch'.selectedCareerPro then
            { ch'.skillAllocations s with career := 0 }
          else ch'.skillAllocations s }

/-- State effect of `populateSocialClassSelect`: keep the social class when
the new culture still offers it, otherwise fall back to the first class. -/
def populateSocialClassSelect (ch : Character) : Character :=
  let classes := socialClassesByCulture ch.culture
  if ch.socialClass ∈ classes.map SocialClass.name then ch
  else
    match classes with
    | [] => ch
    | c :: _ => { ch with socialClass := c.name }

/-- `onCultureOrCareerChange`: switch culture/career, zero allocations of
skills no longer eligible, refresh the professional selections, re-apply the
culture minimums, and refresh the social-class and bonus-skill selectors. -/
def onCultureOrCareerChange (ch : Character) (cu : CultureKey) (ca : CareerKey) :
    Character :=
  let ch := { ch with culture := cu, career := ca }
  let cuDef := cultures cu
  let caDef := careers ca
  let ch :=
    { ch with
      skillAllocations := fun s =>
        if s ∈ allSkills then
          let a := ch.skillAllocations s
          let a := if ¬(s ∈ cuDef.standard ∨ s ∈ cuDef.professional) then
              { a with culture := 0 } else a
          if ¬(s ∈ caDef.standard ∨ s ∈ caDef.professional) then
            { a with career := 0 } else a
        else ch.skillAllocations s }
  let ch := populateProfessionalOptions ch
  let ch := applyCultureMinimums ch
  let ch := populateSocialClassSelect ch
  populateBonusSkillSelect ch

/-- `onAgeChange`: switch the age category, reset the bonus pool and cap, and
zero every bonus allocation. -/
def onAgeChange (ch : Character) (cat : AgeKey) : Character :=
  { ch with
    ageCat := cat,
    skillPools := { ch.skillPools with bonus := (ageCategories cat).bonus },
    skillCaps := { ch.skillCaps with bonus := (ageCategories cat).max },
    skillAllocations := fun s =>
      if s ∈ allSkills then { ch.skillAllocations s with bonus := 0 }
      else ch.skillAllocations s }

/-- The attribute-input listener built by `buildAttributeInputs`: parse
(`NaN` → 3), clamp into `[3, 21]`, store.  There is no point-buy budget
check. -/
def attrInputChange (ch : Character) (key : AttrKey) (input : Option Int) :
    Character :=
  let val := input.getD 3
  let val := min (max val 3) 21
  { ch with attributes := ch.attributes.set key val }

/-- The `poolSize` input listener from `init`: parse (`NaN` → 75), clamp into
`[60, 120]`, store. -/
def poolSizeChange (ch : Character) (input : Option Int) : Character :=
  let val := input.getD 75
  let val := min (max val 60) 120
  { ch with pool := val }

/-- `rollDice(n, s)` with an explicit stream of die results starting at
`start`: the sum of `n` consecutive entries. -/
def rollDice (stream : Nat → Nat) (start n : Nat) : Nat :=
  (List.range n).foldl (fun acc i => acc + stream (start + i)) 0

/-- `rollAttributes` from `script.js`: every one of the seven characteristics
is a plain 3d6 sum (including SIZ and INT). -/
def rollAttributesScript (stream : Nat → Nat) : Attrs :=
  { STR := (rollDice stream 0 3 : Nat)
    CON := (rollDice stream 3 3 : Nat)
    SIZ := (rollDice stream 6 3 : Nat)
    DEX := (rollDice stream 9 3 : Nat)
    INT := (rollDice stream 12 3 : Nat)
    POW := (rollDice stream 15 3 : Nat)
    CHA := (rollDice stream 18 3 : Nat) }

/-- `onMethodChange`: switching to the roll method rolls all attributes;
switching to point-buy only toggles input enablement. -/
def onMethodChange (ch : Character) (isRoll : Bool) (stream : Nat → Nat) :
    Character :=
  if isRoll then { ch with attributes := rollAttributesScript stream } else ch

/-- The bonus-skill select listener: zero the previous bonus skill's bonus
allocation (when it has an allocation record) and store the new choice. -/
def onBonusSkillChange (ch : Character) (v : String) : Character :=
  let old := ch.bonusSkill
  let ch :=
    if old ≠ "" ∧ old ≠ v ∧ old ∈ allSkills then
      { ch with
        skillAllocations := fun s =>
          if s = old then { ch.skillAllocations s with bonus := 0 }
          else ch.skillAllocations s }
    else ch
  { ch with bonusSkill := v }

/-- `getEquipmentTotal()`. -/
def getEquipmentTotal (equipment : List Item) : Int :=
  equipment.foldl (fun sum item => sum + item.cost) 0

/-- `onEquipmentToggle`: purchase (checked) or remove (unchecked) an item.
An unaffordable purchase reverts the checkbox and leaves the ledger
untouched. -/
def onEquipmentToggle (ch : Character) (item : Item) (checked : Bool) :
    Character :=
  let remaining := ch.startingSilver - getEquipmentTotal ch.equipment
  if checked then
    if remaining < item.cost then ch
    else if (ch.equipment.find? (fun e => e.name == item.name)).isSome then ch
    else { ch with equipment := ch.equipment ++ [item] }
  else
    { ch with equipment := ch.equipment.filter (fun e => e.name != item.name) }

/-- `generateStartingSilver`, with the dice total passed in explicitly: the
rolled silver is `roll * 10` times the social-class multiplier, and the
equipment ledger is reset. -/
def generateStartingSilver (ch : Character) (roll : Int) : Character :=
  let mult2 :=
    match (socialClassesByCulture ch.culture).find?
        (fun cls => cls.name == ch.socialClass) with
    | some cls => cls.multiplier2
    | none => 2
  { ch with startingSilver := roll * 5 * mult2, equipment := [] }

/-- `onSocialClassChange`; the select only offers the active culture's
classes. -/
def onSocialClassChange (ch : Character) (s : String) : Character :=
  if s ∈ (socialClassesByCulture ch.culture).map SocialClass.name then
    { ch with socialClass := s }
  else ch

/-! ## Reachable states -/

/-- The public operations of a `script.js` build session.  Dropdown-backed
operations carry only the keys the dropdowns offer; free-text-backed ones
carry arbitrary values. -/
inductive Op where
  | ageChange (cat : AgeKey)
  | cultureCareerChange (cu : CultureKey) (ca : CareerKey)
  | socialChange (s : String)
  | methodChange (isRoll : Bool) (stream : Nat → Nat)
  | attrInput (key : AttrKey) (v : Option Int)
  | poolSize (v : Option Int)
  | proToggle (side : Side) (skill : String) (checked : Bool)
  | skillInput (skill : String) (p : PoolKey) (v : Option Int)
  | bonusSkillChange (v : String)
  | equipToggle (item : Item) (checked : Bool)
  | generateSilver (roll : Int)

def step (ch : Character) : Op → Character
  | .ageChange cat => onAgeChange ch cat
  | .cultureCareerChange cu ca => onCultureOrCareerChange ch cu ca
  | .socialChange s => onSocialClassChange ch s
  | .methodChange isRoll stream => onMethodChange ch isRoll stream
  | .attrInput key v => attrInputChange ch key v
  | .poolSize v => poolSizeChange ch v
  | .proToggle side skill checked => onProfessionalSelectionChange ch side skill checked
  | .skillInput skill p v => onSkillInputChange ch skill p v
  | .bonusSkillChange v => onBonusSkillChange ch v
  | .equipToggle item checked => onEquipmentToggle ch item checked
  | .generateSilver roll => generateStartingSilver ch roll

def run (ch : Character) (ops : List Op) : Character := ops.foldl step ch

/-- The `character` literal of `script.js` before `init()` runs. -/
def characterLiteral : Character :=
  { ageCat := .Adult
    culture := .Barbarian
    career := .Agent
    socialClass := "Middle"
    attributes := ⟨10, 10, 10, 10, 10, 10, 10⟩
    pool := 75
    skillPools := ⟨100, 100, 150⟩
    skillCaps := ⟨15, 15, 15⟩
    skillAllocations := fun _ => ⟨0, 0, 0⟩
    selectedCulturePro := []
    selectedCareerPro := []
    bonusSkill := ""
    equipment := []
    startingSilver := 0 }

/-- The session state right after `init()`: the social-class select is
populated (falling back to the first Barbarian class), culture minimums are
applied, and the professional selections are auto-filled. -/
def initChar : Character :=
  populateBonusSkillSelect
    (populateProfessionalOptions
      (applyCultureMinimums
        (populateSocialClassSelect characterLiteral)))

/-! ## Snapshot (`buildCharacterData`) -/

/-- `computeBaseForSkill(skill)`: apply the standard-skill formula, or 0 for
skills without one. -/
def computeBaseForSkill (ch : Character) (skill : String) : Int :=
  match standardSkillFormulas.lookup skill with
  | some f => f ch.attributes
  | none => 0

/-- `standardSkillFormulas.hasOwnProperty(skill)`. -/
def isStandardSkill (skill : String) : Bool :=
  (standardSkillFormulas.lookup skill).isSome

/-- `computeTotalForSkill(skill)`: base plus the three pool allocations, with
a minimum of 5 enforced for standard skills. -/
def computeTotalForSkill (ch : Character) (skill : String) : Int :=
  let base := computeBaseForSkill ch skill
  let a := ch.skillAllocations skill
  let total := base + a.culture + a.career + a.bonus
  if isStandardSkill skill ∧ total < 5 then 5 else total

/-- One entry of the exported `data.skills` map. -/
structure SkillEntry where
  base : Int
  culture : Int
  career : Int
  bonus : Int
  total : Int
deriving DecidableEq

/-- The `data.skills` map built by `buildCharacterData`: one entry per skill
in `allSkills`, unconditionally. -/
def snapshotSkills (ch : Character) : List (String × SkillEntry) :=
  allSkills.map fun s =>
    (s, ⟨computeBaseForSkill ch s, (ch.skillAllocations s).culture,
         (ch.skillAllocations s).career, (ch.skillAllocations s).bonus,
         computeTotalForSkill ch s⟩)

/-! ## Concrete scenarios used by the claims -/

/-- A dice stream is valid for six-sided dice when every entry is in
`[1, 6]`. -/
def validStream (stream : Nat → Nat) : Prop :=
  ∀ i, 1 ≤ stream i ∧ stream i ≤ 6

/-- The all-ones dice outcome. -/
def onesStream : Nat → Nat := fun _ => 1

/-- `Object.values(character.attributes).reduce((a,b) => a+b, 0)` as used by
`updatePointPoolInfo`. -/
def attrSum (ch : Character) : Int :=
  ch.attributes.STR + ch.attributes.CON + ch.attributes.SIZ + ch.attributes.DEX
    + ch.attributes.INT + ch.attributes.POW + ch.attributes.CHA

/-- Sum of the per-characteristic minimums of the attribute inputs in
`script.js` (`input.min = 3`, and the handler clamps with
`Math.max(val, 3)`, for all seven characteristics). -/
def attrMinSum : Int := 7 * 3

/-- An operation sequence of a `script.js` session: starting from the initial
state (Barbarian culture, all 9 Barbarian standard skills at the culture
minimum of 5), raise five standard skills to the per-skill cap of 15 and one
to 10 — the culture pool is then exactly exhausted (spent = total = 100) —
and then switch the culture to Nomadic.  The switch keeps the allocations of
the eight skills shared with Nomadic (95 points) and `applyCultureMinimums`
then forces 5 fresh points onto each of Stealth, Swim and Drive without any
pool check. -/
def overspendOps : List Op :=
  [.skillInput "Athletics" .culture (some 15),
   .skillInput "Endurance" .culture (some 15),
   .skillInput "First Aid" .culture (some 15),
   .skillInput "Locale" .culture (some 15),
   .skillInput "Perception" .culture (some 15),
   .skillInput "Boating" .culture (some 10),
   .cultureCareerChange .Nomadic .Agent]

/-- The state just before the offending C5 edit: three attributes already
raised to 21 (each edit accepted); `c5Before.attributes.DEX` is still 10. -/
def c5Before : Character :=
  run initChar
    [.attrInput .STR (some 21), .attrInput .CON (some 21), .attrInput .SIZ (some 21)]

/-- The state after one more manual edit that pushes the cumulative cost to
93 against the default budget of 75. -/
def c5After : Character := attrInputChange c5Before .DEX (some 21)

/-- The professional-selection invariant: both selection sets have at most 3
members. -/
def selInv (ch : Character) : Prop :=
  ch.selectedCulturePro.length ≤ 3 ∧ ch.selectedCareerPro.length ≤ 3

/-! ## Helper lemmas -/

theorem PoolVals.get_set_self (x : PoolVals) (p : PoolKey) (v : Int) :
    (x.set p v).get p = v := by cases p <;> rfl

theorem Attrs.get_set_same (a : Attrs) (k : AttrKey) (v : Int) :
    (a.set k v).get k = v := by cases k <;> rfl

theorem Attrs.get_set_ne (a : Attrs) (k : AttrKey) (v : Int) (k' : AttrKey)
    (h : k' ≠ k) : (a.set k v).get k' = a.get k' := by
  cases k <;> cases k' <;> first | rfl | exact absurd rfl h

theorem onesStream_valid : validStream onesStream :=
  fun _ => ⟨Nat.le_refl 1, by norm_num [onesStream]⟩

theorem rollDice_succ (stream : Nat → Nat) (start n : Nat) :
    rollDice stream start (n + 1) = rollDice stream start n + stream (start + n) := by
  unfold rollDice
  rw [List.range_succ, List.foldl_append]
  rfl

theorem equipTotal_foldl_init (l : List Item) :
    ∀ init : Int, l.foldl (fun s item => s + item.cost) init
      = init + getEquipmentTotal l := by
  induction l with
  | nil => intro init; simp [getEquipmentTotal]
  | cons i l ih =>
    intro init
    simp only [getEquipmentTotal, List.foldl_cons] at *
    rw [ih, ih (0 + i.cost)]
    ring

theorem getEquipmentTotal_cons (i : Item) (l : List Item) :
    getEquipmentTotal (i :: l) = i.cost + getEquipmentTotal l := by
  show (i :: l).foldl (fun s item => s + item.cost) 0 = i.cost + getEquipmentTotal l
  rw [List.foldl_cons, equipTotal_foldl_init]
  ring

theorem getEquipmentTotal_append (l1 l2 : List Item) :
    getEquipmentTotal (l1 ++ l2) = getEquipmentTotal l1 + getEquipmentTotal l2 := by
  show (l1 ++ l2).foldl (fun s item => s + item.cost) 0 = _
  rw [List.foldl_append, equipTotal_foldl_init]
  rfl

theorem getEquipmentTotal_filter (l : List Item) (pb : Item → Bool) :
    getEquipmentTotal l
      = getEquipmentTotal (l.filter pb)
        + getEquipmentTotal (l.filter fun e => !(pb e)) := by
  induction l with
  | nil => rfl
  | cons i l ih =>
    by_cases h : pb i
    · simp only [List.filter_cons, h, Bool.not_true, if_true, if_false,
        Bool.false_eq_true, getEquipmentTotal_cons]
      omega
    · simp only [List.filter_cons, h, Bool.not_false, if_true, if_false,
        Bool.false_eq_true, getEquipmentTotal_cons]
      omega

/-- An unaffordable purchase is a no-op. -/
theorem equipToggle_true_fail (ch : Character) (item : Item)
    (h : ch.startingSilver - getEquipmentTotal ch.equipment < item.cost) :
    onEquipmentToggle ch item true = ch := by
  show (if ch.startingSilver - getEquipmentTotal ch.equipment < item.cost then ch
        else if (ch.equipment.find? (fun e => e.name == item.name)).isSome then ch
        else { ch with equipment := ch.equipment ++ [item] }) = ch
  rw [if_pos h]

/-- An affordable purchase of a not-yet-owned item appends it. -/
theorem equipToggle_true_succ (ch : Character) (item : Item)
    (hnew : item.name ∉ ch.equipment.map Item.name)
    (haff : item.cost ≤ ch.startingSilver - getEquipmentTotal ch.equipment) :
    onEquipmentToggle ch item true = { ch with equipment := ch.equipment ++ [item] } := by
  show (if ch.startingSilver - getEquipmentTotal ch.equipment < item.cost then ch
        else if (ch.equipment.find? (fun e => e.name == item.name)).isSome then ch
        else { ch with equipment := ch.equipment ++ [item] }) = _
  rw [if_neg (not_lt.mpr haff)]
  have hf : ch.equipment.find? (fun e => e.name == item.name) = none := by
    rw [List.find?_eq_none]
    intro e he hpe
    have hname : e.name = item.name := by simpa using hpe
    exact hnew (hname ▸ List.mem_map_of_mem Item.name he)
  rw [hf]
  rfl

/-- Removal filters out every item with the same name. -/
theorem equipToggle_false (ch : Character) (item : Item) :
    onEquipmentToggle ch item false
      = { ch with equipment :=
            ch.equipment.filter fun e => !(e.name == item.name) } := rfl

theorem lookup_pairMap {β : Type} (f : String → β) :
    ∀ (l : List String) (s : String), s ∈ l →
      List.lookup s (l.map fun x => (x, f x)) = some (f s) := by
  intro l
  induction l with
  | nil => intro s hs; cases hs
  | cons x xs ih =>
    intro s hs
    by_cases hx : s = x
    · subst hx; simp [List.lookup]
    · rcases List.mem_cons.mp hs with h | h
      · exact absurd h hx
      · simp only [List.map_cons, List.lookup, beq_false_of_ne hx]
        exact ih s h

theorem rollDice_bounds (stream : Nat → Nat) (h : validStream stream)
    (start n : Nat) :
    n ≤ rollDice stream start n ∧ rollDice stream start n ≤ 6 * n := by
  induction n with
  | zero => exact ⟨Nat.le_refl 0, Nat.le_refl 0⟩
  | succ n ih =>
    have hd := h (start + n)
    rw [rollDice_succ]
    omega

theorem sel_populateBonusSkillSelect (ch : Character) :
    (populateBonusSkillSelect ch).selectedCulturePro = ch.selectedCulturePro
    ∧ (populateBonusSkillSelect ch).selectedCareerPro = ch.selectedCareerPro := by
  unfold populateBonusSkillSelect
  dsimp only
  split <;> exact ⟨rfl, rfl⟩

theorem selInv_populateBonusSkillSelect (ch : Character) (h : selInv ch) :
    selInv (populateBonusSkillSelect ch) := by
  have hb := sel_populateBonusSkillSelect ch
  exact ⟨by rw [hb.1]; exact h.1, by rw [hb.2]; exact h.2⟩

theorem selInv_populateProfessionalOptions (ch : Character) (h : selInv ch) :
    selInv (populateProfessionalOptions ch) := by
  unfold populateProfessionalOptions
  dsimp only
  apply selInv_populateBonusSkillSelect
  constructor
  · show (if _ ∧ _ then ((cultures ch.culture).professional.take 3) else _).length ≤ 3
    split_ifs
    · exact List.length_take_le 3 _
    · exact le_trans (List.length_filter_le _ _) h.1
  · show (if _ ∧ _ then ((careers ch.career).professional.take 3) else _).length ≤ 3
    split_ifs
    · exact List.length_take_le 3 _
    · exact le_trans (List.length_filter_le _ _) h.2

theorem sel_populateSocialClassSelect (ch : Character) :
    (populateSocialClassSelect ch).selectedCulturePro = ch.selectedCulturePro
    ∧ (populateSocialClassSelect ch).selectedCareerPro = ch.selectedCareerPro := by
  unfold populateSocialClassSelect
  dsimp only
  split
  · exact ⟨rfl, rfl⟩
  · split <;> exact ⟨rfl, rfl⟩

theorem sel_applyCultureMinimums (ch : Character) :
    (applyCultureMinimums ch).selectedCulturePro = ch.selectedCulturePro
    ∧ (applyCultureMinimums ch).selectedCareerPro = ch.selectedCareerPro :=
  ⟨rfl, rfl⟩

theorem sel_onSkillInputChange (ch : Character) (skill : String) (p : PoolKey)
    (v : Option Int) :
    (onSkillInputChange ch skill p v).selectedCulturePro = ch.selectedCulturePro
    ∧ (onSkillInputChange ch skill p v).selectedCareerPro = ch.selectedCareerPro := by
  unfold onSkillInputChange
  dsimp only
  split_ifs <;> exact ⟨rfl, rfl⟩

theorem sel_onBonusSkillChange (ch : Character) (v : String) :
    (onBonusSkillChange ch v).selectedCulturePro = ch.selectedCulturePro
    ∧ (onBonusSkillChange ch v).selectedCareerPro = ch.selectedCareerPro := by
  unfold onBonusSkillChange
  dsimp only
  split_ifs <;> exact ⟨rfl, rfl⟩

theorem sel_onEquipmentToggle (ch : Character) (item : Item) (checked : Bool) :
    (onEquipmentToggle ch item checked).selectedCulturePro = ch.selectedCulturePro
    ∧ (onEquipmentToggle ch item checked).selectedCareerPro = ch.selectedCareerPro := by
  unfold onEquipmentToggle
  dsimp only
  split_ifs <;> exact ⟨rfl, rfl⟩

theorem sel_onMethodChange (ch : Character) (isRoll : Bool) (stream : Nat → Nat) :
    (onMethodChange ch isRoll stream).selectedCulturePro = ch.selectedCulturePro
    ∧ (onMethodChange ch isRoll stream).selectedCareerPro = ch.selectedCareerPro := by
  unfold onMethodChange
  split_ifs <;> exact ⟨rfl, rfl⟩

theorem sel_onSocialClassChange (ch : Character) (s : String) :
    (onSocialClassChange ch s).selectedCulturePro = ch.selectedCulturePro
    ∧ (onSocialClassChange ch s).selectedCareerPro = ch.selectedCareerPro := by
  unfold onSocialClassChange
  split_ifs <;> exact ⟨rfl, rfl⟩

theorem toggle_sel_len (arr : List String) (skill : String) (checked : Bool)
    (harr : arr.length ≤ 3)
    (hcond : checked = true → skill ∉ arr → arr.length < 3) :
    (if checked = true then (if skill ∈ arr then arr else arr ++ [skill])
     else arr.erase skill).length ≤ 3 := by
  split_ifs with h1 h2
  · exact harr
  · simp only [List.length_append, List.length_singleton]
    have := hcond h1 h2
    omega
  · exact le_trans (List.erase_sublist _ _).length_le harr

theorem selInv_toggle (ch : Character) (side : Side) (skill : String)
    (checked : Bool) (h : selInv ch) :
    selInv (onProfessionalSelectionChange ch side skill checked) := by
  cases side
  · unfold onProfessionalSelectionChange
    dsimp only [selOf]
    by_cases hcond : checked = true ∧ skill ∉ ch.selectedCulturePro
        ∧ ¬(ch.selectedCulturePro.length < 3)
    · rw [if_pos hcond]; exact h
    · rw [if_neg hcond]
      push_neg at hcond
      exact ⟨toggle_sel_len ch.selectedCulturePro skill checked h.1 hcond, h.2⟩
  · unfold onProfessionalSelectionChange
    dsimp only [selOf]
    by_cases hcond : checked = true ∧ skill ∉ ch.selectedCareerPro
        ∧ ¬(ch.selectedCareerPro.length < 3)
    · rw [if_pos hcond]; exact h
    · rw [if_neg hcond]
      push_neg at hcond
      exact ⟨h.1, toggle_sel_len ch.selectedCareerPro skill checked h.2 hcond⟩

theorem selInv_populateSocialClassSelect (ch : Character) (h : selInv ch) :
    selInv (populateSocialClassSelect ch) := by
  have hb := sel_populateSocialClassSelect ch
  exact ⟨by rw [hb.1]; exact h.1, by rw [hb.2]; exact h.2⟩

theorem selInv_onCultureOrCareerChange (ch : Character) (cu : CultureKey)
    (ca : CareerKey) (h : selInv ch) :
    selInv (onCultureOrCareerChange ch cu ca) := by
  unfold onCultureOrCareerChange
  dsimp only
  apply selInv_populateBonusSkillSelect
  apply selInv_populateSocialClassSelect
  exact selInv_populateProfessionalOptions _ h

theorem selInv_of_sel_eq {x y : Character}
    (hc : x.selectedCulturePro = y.selectedCulturePro)
    (hr : x.selectedCareerPro = y.selectedCareerPro) (h : selInv y) : selInv x :=
  ⟨by rw [hc]; exact h.1, by rw [hr]; exact h.2⟩

theorem selInv_step (ch : Character) (op : Op) (h : selInv ch) :
    selInv (step ch op) := by
  cases op with
  | ageChange cat => exact h
  | cultureCareerChange cu ca => exact selInv_onCultureOrCareerChange ch cu ca h
  | socialChange s =>
    have hb := sel_onSocialClassChange ch s
    exact selInv_of_sel_eq hb.1 hb.2 h
  | methodChange isRoll stream =>
    have hb := sel_onMethodChange ch isRoll stream
    exact selInv_of_sel_eq hb.1 hb.2 h
  | attrInput key v => exact h
  | poolSize v => exact h
  | proToggle side skill checked => exact selInv_toggle ch side skill checked h
  | skillInput skill p v =>
    have hb := sel_onSkillInputChange ch skill p v
    exact selInv_of_sel_eq hb.1 hb.2 h
  | bonusSkillChange v =>
    have hb := sel_onBonusSkillChange ch v
    exact selInv_of_sel_eq hb.1 hb.2 h
  | equipToggle item checked =>
    have hb := sel_onEquipmentToggle ch item checked
    exact selInv_of_sel_eq hb.1 hb.2 h
  | generateSilver roll => exact h

theorem selInv_run : ∀ (ops : List Op) (ch : Character),
    selInv ch → selInv (run ch ops) := by
  intro ops
  induction ops with
  | nil => intro ch h; exact h
  | cons op ops ih => intro ch h; exact ih _ (selInv_step ch op h)

theorem selInv_initChar : selInv initChar := by
  constructor <;> decide

/-! ## The `main.js` implementation -/

namespace MainJs

/-- Sum of the values of a `main.js` allocation object (`skillAlloc.culture`
etc., a plain JS object mapping skill names to numbers). -/
def spentOf (alloc : List (String × Int)) : Int :=
  (alloc.map Prod.snd).sum

/-- `allocObj[skillName] = val`: overwrite or insert a key. -/
def storeAlloc : List (String × Int) → String → Int → List (String × Int)
  | [], skill, v => [(skill, v)]
  | (k, w) :: rest, skill, v =>
    if k = skill then (skill, v) :: rest else (k, w) :: storeAlloc rest skill v

/-- `computePointsLeft(alloc, limit)` from `main.js`: the remaining points,
clamped at zero. -/
def computePointsLeft (alloc : List (String × Int)) (limit : Int) : Int :=
  let spent := spentOf alloc
  let left := limit - spent
  if left < 0 then 0 else left

/-- The allocation-input listener installed by `buildSkillTable` in
`main.js` (`none` = `NaN` from `parseInt`). -/
def allocInputChange (alloc : List (String × Int)) (skill : String)
    (limit : Int) (input : Option Int) : List (String × Int) :=
  let val := input.getD 0
  let alloc := storeAlloc alloc skill val
  let left := computePointsLeft alloc limit
  if left < 0 then
    let currentSpent := spentOf alloc
    let overspend := currentSpent - limit
    storeAlloc alloc skill (max 0 (val - overspend))
  else alloc

/-- `rollAttributes` from `main.js`: 3d6 for STR, CON, DEX, POW, CHA and
2d6+6 for SIZ and INT. -/
def rollAttributes (stream : Nat → Nat) : Attrs :=
  { STR := (rollDice stream 0 3 : Nat)
    CON := (rollDice stream 3 3 : Nat)
    DEX := (rollDice stream 6 3 : Nat)
    POW := (rollDice stream 9 3 : Nat)
    CHA := (rollDice stream 12 3 : Nat)
    SIZ := (rollDice stream 15 2 + 6 : Nat)
    INT := (rollDice stream 17 2 + 6 : Nat) }

/-- `damageMod(sum)` from `renderReview` in `main.js`. -/
def damageMod (sum : Int) : String :=
  if sum ≤ 5 then "-1d8"
  else if sum ≤ 10 then "-1d6"
  else if sum ≤ 15 then "-1d4"
  else if sum ≤ 20 then "-1d2"
  else if sum ≤ 25 then "+0"
  else if sum ≤ 30 then "+1d2"
  else if sum ≤ 35 then "+1d4"
  else if sum ≤ 40 then "+1d6"
  else if sum ≤ 45 then "+1d8"
  else "+1d10"

/-- The experience-modifier computation from `renderReview` in `main.js`. -/
def expMod (cha : Int) : Int :=
  if cha ≤ 6 then -1
  else if cha ≤ 12 then 0
  else if cha ≤ 18 then 1
  else 1 + (cha - 18).fdiv 6

end MainJs

/-! ## Claims about the derived-statistics functions -/

/-- C3 (counterexample): the two implementations of the experience modifier
disagree at `CHA = 19`: `script.js` (`1 + floor((19-13)/6)`) gives `2`, while
`main.js` (`1 + floor((19-18)/6)`) gives `1`.  This refutes the claim that
both implementations return the same value for every CHA. -/
theorem C3_expMod_implementations_disagree :
    experienceModifier 19 = 2 ∧ MainJs.expMod 19 = 1 ∧
      experienceModifier 19 ≠ MainJs.expMod 19 := by
  refine ⟨rfl, rfl, ?_⟩
  intro h
  rw [show experienceModifier 19 = 2 from rfl,
      show MainJs.expMod 19 = 1 from rfl] at h
  norm_num at h

/-- C3 (amended): `script.js`'s `experienceModifier` returns -1 / 0 / +1 on
the bands CHA ≤ 6 / ≤ 12 / ≤ 18 and `1 + floor((CHA-13)/6)` beyond 18;
`main.js` computes the same bands but `1 + floor((CHA-18)/6)` beyond 18; the
two implementations agree for every CHA ≤ 18 (but not beyond, see the
counterexample). -/
theorem C3_expMod_amended :
    (∀ cha : Int, 18 < cha →
        experienceModifier cha = 1 + (cha - 13).fdiv 6 ∧
          MainJs.expMod cha = 1 + (cha - 18).fdiv 6)
    ∧ (∀ cha : Int, 0 ≤ cha → cha ≤ 18 →
        experienceModifier cha = MainJs.expMod cha)
    ∧ (∀ cha : Int, cha ≤ 6 →
        experienceModifier cha = -1 ∧ MainJs.expMod cha = -1)
    ∧ (∀ cha : Int, 6 < cha → cha ≤ 12 →
        experienceModifier cha = 0 ∧ MainJs.expMod cha = 0)
    ∧ (∀ cha : Int, 12 < cha → cha ≤ 18 →
        experienceModifier cha = 1 ∧ MainJs.expMod cha = 1) := by
  refine ⟨?_, ?_, ?_, ?_, ?_⟩ <;>
    · intro cha
      simp only [experienceModifier, MainJs.expMod]
      intros
      split_ifs <;> omega

/-- C3 witness: the amended theorem applied at CHA = 19 and CHA = 10. -/
theorem C3_expMod_amended_witness :
    (experienceModifier 19 = 1 + ((19 : Int) - 13).fdiv 6 ∧
      MainJs.expMod 19 = 1 + ((19 : Int) - 18).fdiv 6)
    ∧ experienceModifier 10 = MainJs.expMod 10 :=
  ⟨C3_expMod_amended.1 19 (by norm_num),
   C3_expMod_amended.2.1 10 (by norm_num) (by norm_num)⟩

/-- C7 (counterexample): at the non-negative sum `CON + SIZ = 0` the row
index is `min(floor((0-1)/5), 7) = -1`, an out-of-bounds array access, so
`hitPointsPerLocation` produces no row at all; the claim asserts a table row
for every non-negative sum. -/
theorem C7_hp_at_zero_fails : hitPointsPerLocation 0 = none := rfl

/-- C7 (amended): for every sum ≥ 1, `hitPointsPerLocation` returns a row
(the 8-row table indexed by `floor((sum-1)/5)` clamped to the last row); for
sums above 40 every location of the last row is incremented by
`floor((sum-40)/5)`; and for `CON = 16, SIZ = 10` (sum 26) it returns
`{head: 6, chest: 8, abdomen: 7, arm: 5, leg: 6}`. -/
theorem C7_hp_amended :
    (∀ total : Int, 1 ≤ total → (hitPointsPerLocation total).isSome)
    ∧ (∀ total : Int, 41 ≤ total →
        hitPointsPerLocation total =
          some ⟨8 + (total - 40).fdiv 5, 10 + (total - 40).fdiv 5,
                9 + (total - 40).fdiv 5, 7 + (total - 40).fdiv 5,
                8 + (total - 40).fdiv 5⟩)
    ∧ hitPointsPerLocation 26 = some ⟨6, 8, 7, 5, 6⟩ := by
  have hfd : ∀ t : Int, t.fdiv 5 = t / 5 := fun t =>
    Int.fdiv_eq_ediv t (by norm_num)
  refine ⟨?_, ?_, rfl⟩
  · intro total h1
    simp only [hitPointsPerLocation]
    have hge : 0 ≤ (total - 1).fdiv 5 := by rw [hfd]; omega
    have hle : min ((total - 1).fdiv 5) 7 ≤ 7 := min_le_right _ _
    rw [if_neg (by omega)]
    have hlen : (min ((total - 1).fdiv 5) 7).toNat < hpRows.length := by
      simp only [hpRows, List.length_cons, List.length_nil]
      omega
    have hrow : hpRows.get? ((min ((total - 1).fdiv 5) 7).toNat) =
        some (hpRows.get ⟨(min ((total - 1).fdiv 5) 7).toNat, hlen⟩) :=
      List.get?_eq_some.mpr ⟨hlen, rfl⟩
    rw [hrow]
    rfl
  · intro total h41
    simp only [hitPointsPerLocation]
    have hmin : min ((total - 1).fdiv 5) 7 = 7 := by
      rw [min_eq_right]; rw [hfd]; omega
    have hmax : max 0 ((total - 40).fdiv 5) = (total - 40).fdiv 5 := by
      rw [max_eq_right]; rw [hfd]; omega
    rw [hmin, hmax, if_neg (by omega)]
    rfl

/-- C7 witness: the amended theorem applied at sums 26 and 41. -/
theorem C7_hp_amended_witness :
    (hitPointsPerLocation 26).isSome
    ∧ hitPointsPerLocation 41 =
        some ⟨8 + ((41 : Int) - 40).fdiv 5, 10 + ((41 : Int) - 40).fdiv 5,
              9 + ((41 : Int) - 40).fdiv 5, 7 + ((41 : Int) - 40).fdiv 5,
              8 + ((41 : Int) - 40).fdiv 5⟩ :=
  ⟨C7_hp_amended.1 26 (by norm_num), C7_hp_amended.2.1 41 (by norm_num)⟩

/-- C8 (counterexample): the damage-modifier tables are not "10 discrete
bands from -1d8 up to +2d10": at the claimed last band (sum 120, where the
`+nd2` extension starts), `script.js` already returns "+2d10+1d2" (its 17th
band) and `main.js` returns "+1d10" (its table stops at 10 bands ending in
"+1d10"); moreover `script.js` takes 17 pairwise-distinct values on the band
region, not 10. -/
theorem C8_damage_bands_counterexample :
    damageModifier 120 = "+2d10+1d2" ∧ MainJs.damageMod 120 = "+1d10"
    ∧ (([5, 10, 15, 20, 25, 30, 35, 40, 45, 50, 60, 70, 80, 90, 100, 110,
          120] : List Int).map damageModifier).Nodup := by
  refine ⟨rfl, rfl, ?_⟩
  decide

/-- C8 (amended): `script.js`'s `damageModifier` is a 17-band step table
from "-1d8" up to "+2d10+1d2" and, for sums beyond 120, returns
`"+2d10+" ++ n ++ "d2"` with `n = floor((sum-120)/10)`; `main.js`'s
`damageMod` is a 10-band table that returns "+1d10" for every sum above 45
and has no `d2` extension; both return "+1d2" for sum 26 (Scenario 1,
STR = 12, SIZ = 14). -/
theorem C8_damage_amended :
    (∀ s : Int, 120 < s →
        damageModifier s = "+2d10+" ++ toString ((s - 120).fdiv 10) ++ "d2")
    ∧ (∀ s : Int, 45 < s → MainJs.damageMod s = "+1d10")
    ∧ damageModifier 26 = "+1d2" ∧ MainJs.damageMod 26 = "+1d2" := by
  refine ⟨?_, ?_, rfl, rfl⟩
  · intro s hs
    unfold damageModifier
    repeat rw [if_neg (by omega)]
  · intro s hs
    unfold MainJs.damageMod
    repeat rw [if_neg (by omega)]

/-- C8 witness: the amended theorem applied at sums 130 and 46. -/
theorem C8_damage_amended_witness :
    damageModifier 130 = "+2d10+" ++ toString (((130 : Int) - 120).fdiv 10) ++ "d2"
    ∧ MainJs.damageMod 46 = "+1d10" :=
  ⟨C8_damage_amended.1 130 (by norm_num), C8_damage_amended.2.1 46 (by norm_num)⟩

/-! ## Claims about the allocation pools -/

/-- C1: the pool invariant `spent ≤ total` does NOT hold in every reachable
state.  In `main.js`, `computePointsLeft` never returns a negative number
(first conjunct), so the guard `left < 0` in the allocation-input listener is
dead code and a single edit of 150 points against the 100-point culture pool
is stored, leaving spent = 150 > 100 while the points-left display shows 0.
In `script.js`, the reachable state after `overspendOps` has culture-pool
spent = 110 against total = 100, because `applyCultureMinimums` adds points
without checking the pool. -/
theorem C1_pool_invariant_violated :
    (∀ (alloc : List (String × Int)) (limit : Int),
        0 ≤ MainJs.computePointsLeft alloc limit)
    ∧ MainJs.spentOf (MainJs.allocInputChange [] "Athletics" 100 (some 150)) = 150
    ∧ MainJs.computePointsLeft
        (MainJs.allocInputChange [] "Athletics" 100 (some 150)) 100 = 0
    ∧ spent (run initChar overspendOps) PoolKey.culture = 110
    ∧ (run initChar overspendOps).skillPools.culture = 100 := by
  refine ⟨?_, rfl, rfl, rfl, rfl⟩
  intro alloc limit
  simp only [MainJs.computePointsLeft]
  split_ifs <;> omega

/-- C10: negative allocations are reachable.  `script.js` does normalize
non-numeric or negative skill-allocation input to 0 (first two conjuncts),
but `main.js` only normalizes `NaN`: typing `-5` into an allocation input
stores `-5` (third conjunct).  Moreover, in the overspent `script.js` state
reached by `overspendOps`, a positive edit of 7 on the selected professional
skill Craft is clamped to the (negative) pool remainder and stored as `-10`
(fourth conjunct). -/
theorem C10_negative_allocation_stored :
    (∀ (ch : Character) (skill : String) (p : PoolKey) (v : Int),
        skill ∈ allSkills → v < 0 →
        ((onSkillInputChange ch skill p (some v)).skillAllocations skill).get p = 0)
    ∧ (∀ (ch : Character) (skill : String) (p : PoolKey),
        skill ∈ allSkills →
        ((onSkillInputChange ch skill p none).skillAllocations skill).get p = 0)
    ∧ List.lookup "Athletics"
        (MainJs.allocInputChange [] "Athletics" 100 (some (-5))) = some (-5)
    ∧ ((onSkillInputChange (run initChar overspendOps) "Craft" .culture
          (some 7)).skillAllocations "Craft").get .culture = -10 := by
  refine ⟨?_, ?_, rfl, rfl⟩
  · intro ch skill p v hmem hv
    unfold onSkillInputChange
    rw [if_pos hmem,
        if_pos (show some v = none ∨ (some v).getD 0 < 0 from Or.inr hv)]
    show (if skill = skill then (ch.skillAllocations skill).set p 0
          else ch.skillAllocations skill).get p = 0
    rw [if_pos rfl]
    exact PoolVals.get_set_self _ p 0
  · intro ch skill p hmem
    unfold onSkillInputChange
    rw [if_pos hmem,
        if_pos (show (none : Option Int) = none ∨ (none : Option Int).getD 0 < 0
          from Or.inl rfl)]
    show (if skill = skill then (ch.skillAllocations skill).set p 0
          else ch.skillAllocations skill).get p = 0
    rw [if_pos rfl]
    exact PoolVals.get_set_self _ p 0

/-- C10 witness: the `script.js` normalization applied at a concrete state
and inputs. -/
theorem C10_negative_allocation_stored_witness :
    ((onSkillInputChange initChar "Athletics" PoolKey.bonus
        (some (-3))).skillAllocations "Athletics").get PoolKey.bonus = 0
    ∧ ((onSkillInputChange initChar "Swim" PoolKey.career
        none).skillAllocations "Swim").get PoolKey.career = 0 :=
  ⟨C10_negative_allocation_stored.1 initChar "Athletics" PoolKey.bonus (-3)
      (by decide) (by norm_num),
   C10_negative_allocation_stored.2.1 initChar "Swim" PoolKey.career (by decide)⟩

/-! ## Claims about attribute generation -/

/-- C4 (counterexample): `script.js`'s `rollAttributes` rolls plain 3d6 for
every characteristic, including SIZ and INT; on the valid all-ones dice
outcome it assigns SIZ = 3, outside the claimed range `[8, 18]` (`main.js`,
which does roll 2d6+6, gives SIZ = 8 on the same outcome). -/
theorem C4_script_roll_siz_out_of_range :
    validStream onesStream
    ∧ (rollAttributesScript onesStream).SIZ = 3
    ∧ ¬(8 ≤ (rollAttributesScript onesStream).SIZ)
    ∧ (MainJs.rollAttributes onesStream).SIZ = 8 := by
  refine ⟨onesStream_valid, rfl, ?_, rfl⟩
  rw [show (rollAttributesScript onesStream).SIZ = 3 from rfl]
  norm_num

/-- C4 (amended): for every valid dice outcome, `main.js`'s `rollAttributes`
assigns each of STR, CON, DEX, POW, CHA a 3d6 sum in `[3, 18]` and each of
SIZ, INT a 2d6+6 sum in `[8, 18]`, while `script.js`'s `rollAttributes`
assigns every one of the seven characteristics a 3d6 sum in `[3, 18]`; both
always succeed, overwriting any prior values (the `script.js` roll method
stores `rollAttributesScript stream` regardless of the previous state). -/
theorem C4_roll_amended (stream : Nat → Nat) (h : validStream stream) :
    (∀ k : AttrKey, 3 ≤ (rollAttributesScript stream).get k
        ∧ (rollAttributesScript stream).get k ≤ 18)
    ∧ (∀ k : AttrKey, k = .SIZ ∨ k = .INT →
        8 ≤ (MainJs.rollAttributes stream).get k
          ∧ (MainJs.rollAttributes stream).get k ≤ 18)
    ∧ (∀ k : AttrKey, 3 ≤ (MainJs.rollAttributes stream).get k
        ∧ (MainJs.rollAttributes stream).get k ≤ 18)
    ∧ (∀ ch : Character,
        (onMethodChange ch true stream).attributes = rollAttributesScript stream) := by
  have h3 : ∀ start, 3 ≤ rollDice stream start 3 ∧ rollDice stream start 3 ≤ 18 :=
    fun start => rollDice_bounds stream h start 3
  have h2 : ∀ start, 2 ≤ rollDice stream start 2 ∧ rollDice stream start 2 ≤ 12 :=
    fun start => rollDice_bounds stream h start 2
  refine ⟨?_, ?_, ?_, fun ch => rfl⟩
  · intro k
    cases k <;>
      · simp only [rollAttributesScript, Attrs.get]
        have := h3 0
        have := h3 3
        have := h3 6
        have := h3 9
        have := h3 12
        have := h3 15
        have := h3 18
        omega
  · rintro k (rfl | rfl) <;>
      · simp only [MainJs.rollAttributes, Attrs.get]
        have := h2 15
        have := h2 17
        omega
  · intro k
    cases k <;>
      · simp only [MainJs.rollAttributes, Attrs.get]
        have := h3 0
        have := h3 3
        have := h3 6
        have := h3 9
        have := h3 12
        have := h2 15
        have := h2 17
        omega

/-- C4 witness: the amended theorem applied to the all-ones dice outcome. -/
theorem C4_roll_amended_witness :
    (∀ k : AttrKey, 3 ≤ (rollAttributesScript onesStream).get k
        ∧ (rollAttributesScript onesStream).get k ≤ 18)
    ∧ (∀ k : AttrKey, k = .SIZ ∨ k = .INT →
        8 ≤ (MainJs.rollAttributes onesStream).get k
          ∧ (MainJs.rollAttributes onesStream).get k ≤ 18)
    ∧ (∀ k : AttrKey, 3 ≤ (MainJs.rollAttributes onesStream).get k
        ∧ (MainJs.rollAttributes onesStream).get k ≤ 18)
    ∧ (∀ ch : Character,
        (onMethodChange ch true onesStream).attributes
          = rollAttributesScript onesStream) :=
  C4_roll_amended onesStream onesStream_valid

/-! ## Claims about the point-buy budget -/

/-- C5 (counterexample): under the default point pool of 75, the manual edit
`DEX := 21` raises the cumulative cost `sum(values) - sum(minimums)` to
93 > 75, yet the edit is accepted and DEX is stored as 21 instead of
reverting to its prior value 10: `script.js` never checks the point-buy
budget (`updatePointPoolInfo` only displays `pool - sum`, which simply goes
negative). -/
theorem C5_point_buy_not_enforced :
    c5Before.attributes.DEX = 10
    ∧ c5After.pool = 75
    ∧ c5After.attributes.DEX = 21
    ∧ attrSum c5After - attrMinSum = 93
    ∧ c5After.pool < attrSum c5After - attrMinSum := by
  refine ⟨rfl, rfl, rfl, rfl, ?_⟩
  rw [show c5After.pool = 75 from rfl,
      show attrSum c5After - attrMinSum = 93 from rfl]
  norm_num

/-- C5 (amended): a manual characteristic edit parses the input (`NaN` → 3),
clamps it into `[3, 21]` and always stores it — other characteristics and the
pool are untouched and no edit is ever rejected for exceeding the point-buy
budget; the budget itself (`poolSize` input) defaults to 75 and is clamped
into `[60, 120]`, and is used only for the remaining-points display. -/
theorem C5_attr_edit_amended :
    (∀ (ch : Character) (k : AttrKey) (input : Option Int),
        (attrInputChange ch k input).attributes.get k
            = min (max (input.getD 3) 3) 21
          ∧ (attrInputChange ch k input).pool = ch.pool
          ∧ ∀ k' : AttrKey, k' ≠ k →
              (attrInputChange ch k input).attributes.get k' = ch.attributes.get k')
    ∧ (∀ (ch : Character) (input : Option Int),
        (poolSizeChange ch input).pool = min (max (input.getD 75) 60) 120) := by
  refine ⟨?_, fun ch input => rfl⟩
  intro ch k input
  refine ⟨Attrs.get_set_same _ _ _, rfl, fun k' hk => Attrs.get_set_ne _ _ _ _ hk⟩

/-- C5 witness: the amended theorem applied at a concrete state and edit. -/
theorem C5_attr_edit_amended_witness :
    (attrInputChange initChar .STR (some 40)).attributes.get .STR
        = min (max ((some (40 : Int)).getD 3) 3) 21
    ∧ (attrInputChange initChar .STR (some 40)).attributes.get .CON
        = initChar.attributes.get .CON :=
  ⟨(C5_attr_edit_amended.1 initChar .STR (some 40)).1,
   (C5_attr_edit_amended.1 initChar .STR (some 40)).2.2 .CON (by decide)⟩

/-! ## Claims about money and equipment -/

/-- C6: a purchase succeeds exactly when the item's cost is at most the
remaining silver (`startingSilver - sum of purchased costs`); an
unaffordable purchase leaves the whole state (ledger and remaining money)
unchanged; a successful purchase of a new item deducts exactly its cost;
removal always succeeds (no item of that name survives) and, when the ledger
holds the item exactly once, refunds exactly its cost. -/
theorem C6_purchase_remove (ch : Character) (item : Item) :
    (ch.startingSilver - getEquipmentTotal ch.equipment < item.cost →
        onEquipmentToggle ch item true = ch)
    ∧ (item.name ∉ ch.equipment.map Item.name →
        (item ∈ (onEquipmentToggle ch item true).equipment ↔
          item.cost ≤ ch.startingSilver - getEquipmentTotal ch.equipment))
    ∧ (item.name ∉ ch.equipment.map Item.name →
        item.cost ≤ ch.startingSilver - getEquipmentTotal ch.equipment →
        getEquipmentTotal (onEquipmentToggle ch item true).equipment
          = getEquipmentTotal ch.equipment + item.cost)
    ∧ (∀ e ∈ (onEquipmentToggle ch item false).equipment, e.name ≠ item.name)
    ∧ (ch.equipment.filter (fun e => e.name == item.name) = [item] →
        getEquipmentTotal (onEquipmentToggle ch item false).equipment
          = getEquipmentTotal ch.equipment - item.cost) := by
  refine ⟨equipToggle_true_fail ch item, ?_, ?_, ?_, ?_⟩
  · intro hname
    constructor
    · intro hmem
      by_cases hlt : ch.startingSilver - getEquipmentTotal ch.equipment < item.cost
      · exfalso
        rw [equipToggle_true_fail ch item hlt] at hmem
        exact hname (List.mem_map_of_mem Item.name hmem)
      · exact not_lt.mp hlt
    · intro haff
      rw [equipToggle_true_succ ch item hname haff]
      simp
  · intro hname haff
    rw [equipToggle_true_succ ch item hname haff]
    show getEquipmentTotal (ch.equipment ++ [item]) = _
    rw [getEquipmentTotal_append]
    have h1 : getEquipmentTotal [item] = 0 + item.cost := rfl
    omega
  · intro e he
    rw [equipToggle_false] at he
    replace he : e ∈ ch.equipment ∧ (!(e.name == item.name)) = true :=
      List.mem_filter.mp he
    simpa using he.2
  · intro hf
    rw [equipToggle_false]
    show getEquipmentTotal (ch.equipment.filter fun e => !(e.name == item.name)) = _
    have hsplit := getEquipmentTotal_filter ch.equipment (fun e => e.name == item.name)
    rw [hf] at hsplit
    have h1 : getEquipmentTotal [item] = 0 + item.cost := rfl
    omega

/-- C6 witness: Scenario 5 (purchase costing 50 against remaining 30 is a
no-op), a successful purchase, and an exact refund on removal. -/
theorem C6_purchase_remove_witness :
    onEquipmentToggle { characterLiteral with startingSilver := 30 }
        ⟨"Short Sword", 50⟩ true
      = { characterLiteral with startingSilver := 30 }
    ∧ getEquipmentTotal (onEquipmentToggle
          { characterLiteral with startingSilver := 100 } ⟨"Dagger", 20⟩
          true).equipment
        = getEquipmentTotal ({ characterLiteral with
            startingSilver := 100 } : Character).equipment + 20
    ∧ getEquipmentTotal (onEquipmentToggle
          { characterLiteral with
            startingSilver := 100,
            equipment := [⟨"Dagger", 20⟩] } ⟨"Dagger", 20⟩ false).equipment
        = getEquipmentTotal ({ characterLiteral with
            startingSilver := 100,
            equipment := [⟨"Dagger", 20⟩] } : Character).equipment - 20 :=
  ⟨(C6_purchase_remove _ _).1 (by decide),
   (C6_purchase_remove _ _).2.2.1 (by decide) (by decide),
   (C6_purchase_remove _ _).2.2.2.2 (by decide)⟩

/-! ## Claims about the exported snapshot -/

set_option maxRecDepth 100000 in
/-- C9 (counterexample): the snapshot's per-skill map is not restricted to
skills with a nonzero base or allocation: in the initial session state the
professional skill Acrobatics has base 0 and no allocations in any pool, yet
`buildCharacterData` emits the entry
`{base: 0, culture: 0, career: 0, bonus: 0, total: 0}` for it. -/
theorem C9_snapshot_includes_zero_skill :
    List.lookup "Acrobatics" (snapshotSkills initChar) = some ⟨0, 0, 0, 0, 0⟩ := rfl

/-- C9 (amended): the snapshot's per-skill map contains an entry for every
skill in `allSkills` unconditionally — the map's keys are exactly
`allSkills`, and looking up any skill yields its
`{base, culture, career, bonus, total}` record (zero-valued entries
included; only the on-screen summary filters by total > 0). -/
theorem C9_snapshot_amended (ch : Character) :
    (snapshotSkills ch).map Prod.fst = allSkills
    ∧ ∀ s : String, s ∈ allSkills →
        List.lookup s (snapshotSkills ch) =
          some ⟨computeBaseForSkill ch s, (ch.skillAllocations s).culture,
                (ch.skillAllocations s).career, (ch.skillAllocations s).bonus,
                computeTotalForSkill ch s⟩ := by
  constructor
  · unfold snapshotSkills
    rw [List.map_map]
    exact List.map_id allSkills
  · intro s hs
    exact lookup_pairMap _ allSkills s hs

set_option maxRecDepth 100000 in
/-- C9 witness: the amended theorem applied at the initial state and the
skill Athletics. -/
theorem C9_snapshot_amended_witness :
    List.lookup "Athletics" (snapshotSkills initChar) =
      some ⟨computeBaseForSkill initChar "Athletics",
            (initChar.skillAllocations "Athletics").culture,
            (initChar.skillAllocations "Athletics").career,
            (initChar.skillAllocations "Athletics").bonus,
            computeTotalForSkill initChar "Athletics"⟩ :=
  (C9_snapshot_amended initChar).2 "Athletics" (by decide)

/-! ## Claims about professional-skill selection -/

/-- C2: selecting a fourth professional skill on a side whose selection set
already has 3 members is rejected with both selection sets unchanged; and in
every reachable state of a `script.js` session each side's selection set has
size at most 3. -/
theorem C2_professional_selection_limit :
    (∀ (ch : Character) (side : Side) (skill : String),
        (selOf ch side).length = 3 →
        (onProfessionalSelectionChange ch side skill true).selectedCulturePro
            = ch.selectedCulturePro
          ∧ (onProfessionalSelectionChange ch side skill true).selectedCareerPro
            = ch.selectedCareerPro)
    ∧ ∀ ops : List Op,
        (run initChar ops).selectedCulturePro.length ≤ 3
        ∧ (run initChar ops).selectedCareerPro.length ≤ 3 := by
  constructor
  · intro ch side skill h
    cases side
    · unfold onProfessionalSelectionChange
      dsimp only [selOf] at h ⊢
      by_cases hmem : skill ∈ ch.selectedCulturePro
      · rw [if_neg (by push_neg; intro _ hns; exact absurd hmem hns)]
        dsimp only
        constructor
        · show (if skill ∈ ch.selectedCulturePro then ch.selectedCulturePro
                else ch.selectedCulturePro ++ [skill]) = ch.selectedCulturePro
          rw [if_pos hmem]
        · rfl
      · rw [if_pos ⟨rfl, hmem, by omega⟩]
        exact ⟨rfl, rfl⟩
    · unfold onProfessionalSelectionChange
      dsimp only [selOf] at h ⊢
      by_cases hmem : skill ∈ ch.selectedCareerPro
      · rw [if_neg (by push_neg; intro _ hns; exact absurd hmem hns)]
        dsimp only
        constructor
        · rfl
        · show (if skill ∈ ch.selectedCareerPro then ch.selectedCareerPro
                else ch.selectedCareerPro ++ [skill]) = ch.selectedCareerPro
          rw [if_pos hmem]
      · rw [if_pos ⟨rfl, hmem, by omega⟩]
        exact ⟨rfl, rfl⟩
  · intro ops
    exact selInv_run ops initChar selInv_initChar

/-- C2 witness: with the three auto-selected Barbarian culture professional
skills (Craft, Healing, Lore), toggling a fourth (Track) leaves both
selection sets unchanged. -/
theorem C2_professional_selection_limit_witness :
    (onProfessionalSelectionChange initChar Side.culture "Track"
        true).selectedCulturePro = initChar.selectedCulturePro
    ∧ (onProfessionalSelectionChange initChar Side.culture "Track"
        true).selectedCareerPro = initChar.selectedCareerPro :=
  C2_professional_selection_limit.1 initChar Side.culture "Track" (by decide)

end Mythras
